import Mathlib

/-!
Shallow embedding of `Source/RenderPasses/BSDFViewer/BSDFViewer.cpp` (Falcor
BSDFViewer render pass).  The member state of the pass is modelled explicitly;
every host-framework service the pass calls (EnvProbe creation, GUI widgets,
file dialog, resource binding) is an oracle passed in as data.  Floating-point
values are modelled over `ℚ`; the C++ `float -> int` cast truncates toward
zero and is modelled by `truncQ`.  C++ exceptions are modelled as an
`Option String`/`Except String` component of the result.
-/

namespace BSDFViewer

/-- The fixed-layout per-pixel readback record `PixelData` (fields as read and
displayed by `BSDFViewer.cpp`: `texC`, `baseColor`, `diffuse`, `specular`,
`linearRoughness`, `metallic`, `T`, `B`, `N`, `wo`, `wi`, `output`). -/
structure PixelData where
  texC : ℚ × ℚ
  baseColor : ℚ × ℚ × ℚ
  diffuse : ℚ × ℚ × ℚ
  specular : ℚ × ℚ × ℚ
  linearRoughness : ℚ
  metallic : ℚ
  T : ℚ × ℚ × ℚ
  B : ℚ × ℚ × ℚ
  N : ℚ × ℚ × ℚ
  wo : ℚ × ℚ × ℚ
  wi : ℚ × ℚ × ℚ
  output : ℚ × ℚ × ℚ
  deriving DecidableEq

/-- The GPU-visible parameter struct `mParams` (fields referenced by
`BSDFViewer.cpp`). -/
structure ViewerParams where
  frameDim : Nat × Nat
  viewportOffset : ℚ × ℚ
  viewportScale : ℚ × ℚ
  cameraViewportScale : ℚ
  sliceViewer : Bool
  useSceneMaterial : Bool
  materialID : Nat
  useNormalMapping : Bool
  useFixedTexCoords : Bool
  texCoords : ℚ × ℚ
  baseColor : ℚ × ℚ × ℚ
  linearRoughness : ℚ
  metallic : ℚ
  originalDisney : Bool
  enableDiffuse : Bool
  enableSpecular : Bool
  useBrdfSampling : Bool
  usePdf : Bool
  applyNdotL : Bool
  lightIntensity : ℚ
  lightColor : ℚ × ℚ × ℚ
  useGroundPlane : Bool
  useDirectionalLight : Bool
  lightDir : ℚ × ℚ × ℚ
  useEnvMap : Bool
  orthographicCamera : Bool
  cameraDistance : ℚ
  cameraFovY : ℚ
  readback : Bool
  selectedPixel : Int × Int
  frameCount : Nat
  deriving DecidableEq

/-- A scene as seen by this pass: an optional light probe (carrying the
source filename of its original texture) and the ordered material names. -/
structure Scene where
  lightProbeFilename : Option String
  materials : List String
  deriving DecidableEq

/-- Member state of the pass: `mParams` plus the other member variables of
`BSDFViewer` that `BSDFViewer.cpp` mutates.  An environment probe handle is
represented by the source filename of its environment map texture. -/
structure ViewerState where
  params : ViewerParams
  mpScene : Option Scene
  mpEnvProbe : Option String
  mEnvProbeFilename : String
  mMaterialList : List (Nat × String)
  mOptionsChanged : Bool
  mPixelData : PixelData
  mPixelDataValid : Bool
  deriving DecidableEq

/-- Host-framework oracles used by `loadEnvMap` and `setScene`:
`EnvProbe.create` (returns the env-map source filename of the created probe, or
`none` on failure), the path-to-filename helper, and whether
`setIntoConstantBuffer` succeeds. -/
structure Host where
  envProbeCreate : String → Option String
  getFilenameFromPath : String → String
  bindEnvProbeOk : Bool

/-- Model of `BSDFViewer::loadEnvMap`.  Result: `(outcome, new state, warnings)`, where
`outcome` is `.ok b` for a normal return of `b` and `.error e` for a thrown
`std::exception` with message `e`. -/
def loadEnvMap (host : Host) (s : ViewerState) (filename : String) :
    Except String Bool × ViewerState × List String :=
  match host.envProbeCreate filename with
  | none =>
      (Except.ok false, s, ["Failed to load environment map from " ++ filename])
  | some probe =>
      let s := { s with mpEnvProbe := some probe,
                        mEnvProbeFilename := host.getFilenameFromPath probe }
      if host.bindEnvProbeOk then
        (Except.ok true, s, [])
      else
        (Except.error "Failed to bind EnvProbe to program", s, [])

/-- Keyboard keys distinguished by `BSDFViewer::onKeyEvent`: the left and
right arrow keys; all other keys are collapsed into `other`. -/
inductive Key where
  | left
  | right
  | other (code : Nat)
  deriving DecidableEq

/-- Keyboard event types (`KeyboardEvent::Type`). -/
inductive KeyEventType where
  | keyPressed
  | keyReleased
  deriving DecidableEq

/-- A keyboard event. -/
structure KeyboardEvent where
  type : KeyEventType
  key : Key
  deriving DecidableEq

/-- Model of `BSDFViewer::onKeyEvent`: left/right arrow key presses cycle
`mParams.materialID`; the options-changed flag is raised only when the index
actually changes.  Returns the new state and the handler result. -/
def onKeyEvent (s : ViewerState) (e : KeyboardEvent) : ViewerState × Bool :=
  if e.type = KeyEventType.keyPressed then
    if e.key = Key.left ∨ e.key = Key.right then
      let id := s.params.materialID
      let lastId := if s.mMaterialList.length > 0 then s.mMaterialList.length - 1 else 0
      let id := if e.key = Key.left then (if id > 0 then id - 1 else lastId)
                else (if id < lastId then id + 1 else 0)
      let s := if id ≠ s.params.materialID then { s with mOptionsChanged := true } else s
      ({ s with params := { s.params with materialID := id } }, true)
    else (s, false)
  else (s, false)

/-- Mouse event types (`MouseEvent::Type`). -/
inductive MouseEventType where
  | leftButtonDown
  | leftButtonUp
  | middleButtonDown
  | middleButtonUp
  | rightButtonDown
  | rightButtonUp
  | move
  | wheel
  deriving DecidableEq

/-- A mouse event: type and normalized cursor position. -/
structure MouseEvent where
  type : MouseEventType
  pos : ℚ × ℚ
  deriving DecidableEq

/-- C++ `float -> int` conversion: truncation toward zero. -/
def truncQ (q : ℚ) : Int :=
  if 0 ≤ q then ⌊q⌋ else ⌈q⌉

/-- Model of `glm::clamp` on integers: `min (max x lo) hi`. -/
def iclamp (x lo hi : Int) : Int :=
  min (max x lo) hi

/-- Model of `BSDFViewer::onMouseEvent`: a left-button press writes the clamped integer
pixel under the cursor into `mParams.selectedPixel`; every other event leaves
the state alone.  Returns the new state and the handler result. -/
def onMouseEvent (s : ViewerState) (e : MouseEvent) : ViewerState × Bool :=
  if e.type = MouseEventType.leftButtonDown then
    let px := iclamp (truncQ (e.pos.1 * (s.params.frameDim.1 : ℚ))) 0
                ((s.params.frameDim.1 : Int) - 1)
    let py := iclamp (truncQ (e.pos.2 * (s.params.frameDim.2 : ℚ))) 0
                ((s.params.frameDim.2 : Int) - 1)
    ({ s with params := { s.params with selectedPixel := (px, py) } }, false)
  else (s, false)

/-- Model of `BSDFViewer::compile`: stores the frame dimensions and places a square
viewport of side `min w h` centered in the frame. -/
def compile (s : ViewerState) (defaultTexDims : Nat × Nat) : ViewerState :=
  let frameDim := defaultTexDims
  let extent := min frameDim.1 frameDim.2
  let xOffset := (frameDim.1 - extent) / 2
  let yOffset := (frameDim.2 - extent) / 2
  { s with params := { s.params with
      frameDim := frameDim,
      viewportOffset := ((xOffset : ℚ), (yOffset : ℚ)),
      viewportScale := (1 / (extent : ℚ), 1 / (extent : ℚ)) } }

/-- Construction oracles for `BSDFViewer::init`: whether `ComputePass.create`,
`SampleGenerator.create` and `StructuredBuffer.create` succeed. -/
structure InitHost where
  computePassCreateOk : Bool
  sampleGeneratorCreateOk : Bool
  structuredBufferCreateOk : Bool

/-- Model of `BSDFViewer::init`: fails as soon as any sub-resource fails to construct. -/
def init (h : InitHost) : Bool :=
  if !h.computePassCreateOk then false
  else if !h.sampleGeneratorCreateOk then false
  else if !h.structuredBufferCreateOk then false
  else true

/-- Model of `BSDFViewer::create`: returns the new pass object (modelled as `some ()`)
when `init` succeeds and `nullptr` (`none`) otherwise. -/
def create (h : InitHost) : Option Unit :=
  if init h then some () else none

/-- Model of `BSDFViewer::setScene`.  Clears the probe/filename/material-list state,
then either disables the scene-dependent options (null scene) or loads the
light-probe env map of the scene (if any) and rebuilds the material list.
`loadEnvMap` may throw, which propagates out of `setScene`. -/
def setScene (host : Host) (s : ViewerState) (scene : Option Scene) :
    Except String ViewerState :=
  let s := { s with mpScene := scene, mpEnvProbe := none, mEnvProbeFilename := "",
                    mMaterialList := [],
                    params := { s.params with materialID := 0 } }
  match scene with
  | none =>
      Except.ok { s with params := { s.params with useSceneMaterial := false,
                                                   useEnvMap := false } }
  | some sc =>
      let loadStep : Except String ViewerState :=
        match sc.lightProbeFilename with
        | some fn =>
            match loadEnvMap host s fn with
            | (Except.ok _, s2, _) => Except.ok s2
            | (Except.error e, _, _) => Except.error e
        | none => Except.ok s
      match loadStep with
      | Except.error e => Except.error e
      | Except.ok s2 =>
          let s3 :=
            if s2.mpEnvProbe.isNone then
              { s2 with params := { s2.params with useEnvMap := false } }
            else s2
          Except.ok { s3 with mMaterialList :=
            sc.materials.enum.map (fun p => (p.1, toString p.1 ++ ": " ++ p.2)) }

/-- The render-data dictionary as used by `execute`: its single relevant
entry, the value stored under the key `kRenderPassRefreshFlags` (`none` when
`keyExists` is false). -/
structure RenderDataDict where
  refreshFlags : Option Nat
  deriving DecidableEq

/-- Modelled from the spec: the flag bit
`RenderPassRefreshFlags::RenderOptionsChanged` of the host framework.  The enum lives in a
host header outside this repository; the spec only requires it to be a fixed
flag bit that is OR-ed into the dictionary entry. -/
def kRenderOptionsChanged : Nat := 2

/-- Per-frame oracles for `execute`: the host-computed camera scale
`tan(radians(fovY/2)) * cameraDistance`, whether binding the sample generator
succeeds, and the contents of the GPU readback buffer after the dispatch. -/
structure ExecEnv where
  cameraViewportScale : ℚ
  bindSampleGenOk : Bool
  bufferData : PixelData

/-- Model of `BSDFViewer::execute`.  Result `(thrown, new state, new dict)`: `thrown`
carries the message of a thrown `std::exception` (`none` on normal return);
mutations made before a throw persist. -/
def execute (env : ExecEnv) (s : ViewerState) (dict : RenderDataDict) :
    Option String × ViewerState × RenderDataDict :=
  let dict1 :=
    if s.mOptionsChanged then
      { dict with
          refreshFlags := some (dict.refreshFlags.getD 0 ||| kRenderOptionsChanged) }
    else dict
  let s1 := if s.mOptionsChanged then { s with mOptionsChanged := false } else s
  let s2 := { s1 with params :=
    { s1.params with cameraViewportScale := env.cameraViewportScale } }
  if !env.bindSampleGenOk then
    (some "Failed to bind sample generator", s2, dict1)
  else
    let s3 := { s2 with mPixelDataValid := false }
    let s4 :=
      if s3.params.readback then
        { s3 with mPixelData := env.bufferData, mPixelDataValid := true,
                  params := { s3.params with texCoords := env.bufferData.texC } }
      else s3
    (none,
     { s4 with params := { s4.params with frameCount := s4.params.frameCount + 1 } },
     dict1)

/-- One user interaction with a `renderUI` invocation: which collapsible
groups are open, the value each visited editable widget holds afterwards
(a widget reports a change when that value differs from the previous field
value), whether the load-envmap button was pressed, and the file dialog
result. -/
structure UIInput where
  mtlGroupOpen : Bool
  bsdfGroupOpen : Bool
  lightGroupOpen : Bool
  cameraGroupOpen : Bool
  pixelGroupOpen : Bool
  sliceViewer : Bool
  useSceneMaterial : Bool
  materialID : Nat
  useNormalMapping : Bool
  useFixedTexCoords : Bool
  texCoords : ℚ × ℚ
  baseColor : ℚ × ℚ × ℚ
  linearRoughness : ℚ
  metallic : ℚ
  originalDisney : Bool
  enableDiffuse : Bool
  enableSpecular : Bool
  useBrdfSampling : Bool
  usePdf : Bool
  applyNdotL : Bool
  lightIntensity : ℚ
  lightColor : ℚ × ℚ × ℚ
  useGroundPlane : Bool
  useDirectionalLight : Bool
  lightDir : ℚ × ℚ × ℚ
  useEnvMap : Bool
  orthographicCamera : Bool
  cameraDistance : ℚ
  cameraFovY : ℚ
  selectedPixel : Int × Int
  loadButtonPressed : Bool
  fileDialogResult : Option String

/-- The "Material" group of `BSDFViewer::renderUI` (threads the `dirty`
flag). -/
def renderMaterialGroup (ui : UIInput) (s : ViewerState) (dirty : Bool) :
    ViewerState × Bool :=
  if ui.mtlGroupOpen then
    let prevMode := s.params.useSceneMaterial
    let s := { s with params := { s.params with useSceneMaterial := ui.useSceneMaterial } }
    let s := if s.mpScene.isNone then
               { s with params := { s.params with useSceneMaterial := false } }
             else s
    let dirty := dirty || decide (s.params.useSceneMaterial ≠ prevMode)
    if s.params.useSceneMaterial then
      let dirty := dirty || decide (ui.materialID ≠ s.params.materialID)
      let s := { s with params := { s.params with materialID := ui.materialID } }
      let dirty := dirty || decide (ui.useNormalMapping ≠ s.params.useNormalMapping)
      let s := { s with params := { s.params with useNormalMapping := ui.useNormalMapping } }
      let dirty := dirty || decide (ui.useFixedTexCoords ≠ s.params.useFixedTexCoords)
      let s := { s with params := { s.params with useFixedTexCoords := ui.useFixedTexCoords } }
      let dirty := dirty || decide (ui.texCoords ≠ s.params.texCoords)
      ({ s with params := { s.params with texCoords := ui.texCoords } }, dirty)
    else
      let dirty := dirty || decide (ui.baseColor ≠ s.params.baseColor)
      let s := { s with params := { s.params with baseColor := ui.baseColor } }
      let dirty := dirty || decide (ui.linearRoughness ≠ s.params.linearRoughness)
      let s := { s with params := { s.params with linearRoughness := ui.linearRoughness } }
      let dirty := dirty || decide (ui.metallic ≠ s.params.metallic)
      ({ s with params := { s.params with metallic := ui.metallic } }, dirty)
  else (s, dirty)

/-- The "BSDF" group of `BSDFViewer::renderUI`. -/
def renderBSDFGroup (ui : UIInput) (s : ViewerState) (dirty : Bool) :
    ViewerState × Bool :=
  if ui.bsdfGroupOpen then
    let dirty := dirty || decide (ui.originalDisney ≠ s.params.originalDisney)
    let s := { s with params := { s.params with originalDisney := ui.originalDisney } }
    let dirty := dirty || decide (ui.enableDiffuse ≠ s.params.enableDiffuse)
    let s := { s with params := { s.params with enableDiffuse := ui.enableDiffuse } }
    let dirty := dirty || decide (ui.enableSpecular ≠ s.params.enableSpecular)
    let s := { s with params := { s.params with enableSpecular := ui.enableSpecular } }
    let dirty := dirty || decide (ui.useBrdfSampling ≠ s.params.useBrdfSampling)
    let s := { s with params := { s.params with useBrdfSampling := ui.useBrdfSampling } }
    let dirty := dirty || decide (ui.usePdf ≠ s.params.usePdf)
    let s := { s with params := { s.params with usePdf := ui.usePdf } }
    let dirty := dirty || decide (ui.applyNdotL ≠ s.params.applyNdotL)
    ({ s with params := { s.params with applyNdotL := ui.applyNdotL } }, dirty)
  else (s, dirty)

/-- The `if (lightGroup.button("Load envmap"))` block of
`BSDFViewer::renderUI`: when the button is pressed and the file dialog
returns a filename, a successful `loadEnvMap` turns the directional light off
and the environment map on (and forces `dirty`); `loadEnvMap` may throw.
Result `(thrown, state, dirty)`. -/
def loadEnvMapButton (host : Host) (ui : UIInput) (s : ViewerState) (dirty : Bool) :
    Option String × ViewerState × Bool :=
  if ui.loadButtonPressed then
    match ui.fileDialogResult with
    | some fn =>
        match loadEnvMap host s fn with
        | (Except.ok true, s2, _) =>
            (none, { s2 with params := { s2.params with useDirectionalLight := false,
                                                        useEnvMap := true } }, true)
        | (Except.ok false, s2, _) => (none, s2, dirty)
        | (Except.error e, s2, _) => (some e, s2, dirty)
    | none => (none, s, dirty)
  else (none, s, dirty)

/-- The "Light" group of `BSDFViewer::renderUI`.  Result `(thrown, state,
dirty)`: the load-envmap button may call `loadEnvMap`, which can throw. -/
def renderLightGroup (host : Host) (ui : UIInput) (s : ViewerState) (dirty : Bool) :
    Option String × ViewerState × Bool :=
  if ui.lightGroupOpen then
    let dirty := dirty || decide (ui.lightIntensity ≠ s.params.lightIntensity)
    let s := { s with params := { s.params with lightIntensity := ui.lightIntensity } }
    let dirty := dirty || decide (ui.lightColor ≠ s.params.lightColor)
    let s := { s with params := { s.params with lightColor := ui.lightColor } }
    let dirty := dirty || decide (ui.useGroundPlane ≠ s.params.useGroundPlane)
    let s := { s with params := { s.params with useGroundPlane := ui.useGroundPlane } }
    let dirty := dirty || decide (ui.useDirectionalLight ≠ s.params.useDirectionalLight)
    let s := { s with params := { s.params with useDirectionalLight := ui.useDirectionalLight } }
    let dirty :=
      if s.params.useDirectionalLight then
        dirty || decide (ui.lightDir ≠ s.params.lightDir)
      else dirty
    let s :=
      if s.params.useDirectionalLight then
        { s with params := { s.params with useEnvMap := false,
                                           lightDir := ui.lightDir } }
      else s
    let dirty :=
      if s.mpEnvProbe.isSome then
        dirty || decide (ui.useEnvMap ≠ s.params.useEnvMap)
      else dirty
    let s :=
      if s.mpEnvProbe.isSome then
        let t := { s with params := { s.params with useEnvMap := ui.useEnvMap } }
        if t.params.useEnvMap then
          { t with params := { t.params with useDirectionalLight := false } }
        else t
      else s
    loadEnvMapButton host ui s dirty
  else (none, s, dirty)

/-- The "Camera" group of `BSDFViewer::renderUI`. -/
def renderCameraGroup (ui : UIInput) (s : ViewerState) (dirty : Bool) :
    ViewerState × Bool :=
  if ui.cameraGroupOpen then
    let dirty := dirty || decide (ui.orthographicCamera ≠ s.params.orthographicCamera)
    let s := { s with params := { s.params with orthographicCamera := ui.orthographicCamera } }
    if !s.params.orthographicCamera then
      let dirty := dirty || decide (ui.cameraDistance ≠ s.params.cameraDistance)
      let s := { s with params := { s.params with cameraDistance := ui.cameraDistance } }
      let dirty := dirty || decide (ui.cameraFovY ≠ s.params.cameraFovY)
      ({ s with params := { s.params with cameraFovY := ui.cameraFovY } }, dirty)
    else (s, dirty)
  else (s, dirty)

/-- The "Pixel data" group of `BSDFViewer::renderUI`: configures
`mParams.readback` and, when the group is open, lets the user edit the
selected pixel (the data display widgets are read-only). -/
def renderPixelGroup (ui : UIInput) (s : ViewerState) : ViewerState :=
  let readTexCoords := s.params.useSceneMaterial && !s.params.useFixedTexCoords
  let s := { s with params :=
    { s.params with readback := readTexCoords || ui.pixelGroupOpen } }
  if ui.pixelGroupOpen then
    { s with params := { s.params with selectedPixel := ui.selectedPixel } }
  else s

/-- Model of `BSDFViewer::renderUI`: the slice-viewer checkbox followed by the five
groups; if any tracked widget reported a change, the options-changed flag is
raised at the end.  A throw inside the light group propagates (`some e`). -/
def renderUI (host : Host) (s : ViewerState) (ui : UIInput) :
    Option String × ViewerState :=
  let dirty := false || decide (ui.sliceViewer ≠ s.params.sliceViewer)
  let s := { s with params := { s.params with sliceViewer := ui.sliceViewer } }
  let m := renderMaterialGroup ui s dirty
  let b := renderBSDFGroup ui m.1 m.2
  let l := renderLightGroup host ui b.1 b.2
  match l.1 with
  | some e => (some e, l.2.1)
  | none =>
      let c := renderCameraGroup ui l.2.1 l.2.2
      let s2 := renderPixelGroup ui c.1
      (none, if c.2 then { s2 with mOptionsChanged := true } else s2)

/-! Concrete fixtures used to instantiate the theorems below. -/

/-- A zeroed pixel-data record. -/
def pixelData0 : PixelData :=
  { texC := (0, 0), baseColor := (0, 0, 0), diffuse := (0, 0, 0),
    specular := (0, 0, 0), linearRoughness := 0, metallic := 0,
    T := (0, 0, 0), B := (0, 0, 0), N := (0, 0, 0), wo := (0, 0, 0),
    wi := (0, 0, 0), output := (0, 0, 0) }

/-- A pixel-data record with distinctive texture coordinates. -/
def pixelData1 : PixelData :=
  { pixelData0 with texC := (1/2, 1/4) }

/-- A zeroed parameter block. -/
def params0 : ViewerParams :=
  { frameDim := (0, 0), viewportOffset := (0, 0), viewportScale := (0, 0),
    cameraViewportScale := 0, sliceViewer := false, useSceneMaterial := false,
    materialID := 0, useNormalMapping := false, useFixedTexCoords := false,
    texCoords := (0, 0), baseColor := (0, 0, 0), linearRoughness := 0,
    metallic := 0, originalDisney := false, enableDiffuse := false,
    enableSpecular := false, useBrdfSampling := false, usePdf := false,
    applyNdotL := false, lightIntensity := 0, lightColor := (0, 0, 0),
    useGroundPlane := false, useDirectionalLight := false,
    lightDir := (0, 0, 0), useEnvMap := false, orthographicCamera := false,
    cameraDistance := 0, cameraFovY := 0, readback := false,
    selectedPixel := (0, 0), frameCount := 0 }

/-- A baseline viewer state. -/
def testState : ViewerState :=
  { params := params0, mpScene := none, mpEnvProbe := none,
    mEnvProbeFilename := "", mMaterialList := [], mOptionsChanged := false,
    mPixelData := pixelData0, mPixelDataValid := false }

/-- A host on which `EnvProbe.create` always fails. -/
def createFailHost : Host :=
  { envProbeCreate := fun _ => none, getFilenameFromPath := fun p => p,
    bindEnvProbeOk := true }

/-- A host on which `EnvProbe.create` succeeds but binding the probe fails. -/
def bindFailHost : Host :=
  { envProbeCreate := fun _ => some "probe.hdr",
    getFilenameFromPath := fun p => p, bindEnvProbeOk := false }

/-- A host on which both probe creation and binding succeed. -/
def okHost : Host :=
  { envProbeCreate := fun _ => some "probe.hdr",
    getFilenameFromPath := fun p => p, bindEnvProbeOk := true }

/-- A state whose material list has a single entry. -/
def stateOneMat : ViewerState :=
  { testState with mMaterialList := [(0, "0: m")] }

/-- A state whose material list has two entries. -/
def stateTwoMats : ViewerState :=
  { testState with mMaterialList := [(0, "0: a"), (1, "1: b")] }

/-- A state with a 16x8 frame. -/
def stateFrame : ViewerState :=
  { testState with params := { params0 with frameDim := (16, 8) } }

/-- A state with the readback option enabled. -/
def stateReadback : ViewerState :=
  { testState with params := { params0 with readback := true } }

/-- A state with the options-changed flag raised. -/
def stateOptsChanged : ViewerState :=
  { testState with mOptionsChanged := true }

/-- A state with both light options raised is excluded by the `renderUI`
invariant; this state raises only the directional light. -/
def stateDirLight : ViewerState :=
  { testState with params := { params0 with useDirectionalLight := true } }

/-- A per-frame environment where every binding succeeds. -/
def execEnv0 : ExecEnv :=
  { cameraViewportScale := 3, bindSampleGenOk := true, bufferData := pixelData1 }

/-- A render-data dictionary whose refresh-flags entry already holds bits. -/
def dict5 : RenderDataDict := { refreshFlags := some 5 }

/-- A UI interaction: all groups open, the user ticks the directional-light
and environment-map checkboxes, presses no button. -/
def uiInput0 : UIInput :=
  { mtlGroupOpen := true, bsdfGroupOpen := true, lightGroupOpen := true,
    cameraGroupOpen := true, pixelGroupOpen := true, sliceViewer := false,
    useSceneMaterial := false, materialID := 0, useNormalMapping := false,
    useFixedTexCoords := false, texCoords := (0, 0), baseColor := (0, 0, 0),
    linearRoughness := 0, metallic := 0, originalDisney := false,
    enableDiffuse := false, enableSpecular := false, useBrdfSampling := false,
    usePdf := false, applyNdotL := false, lightIntensity := 0,
    lightColor := (0, 0, 0), useGroundPlane := false,
    useDirectionalLight := true, lightDir := (0, 0, 0), useEnvMap := true,
    orthographicCamera := false, cameraDistance := 0, cameraFovY := 0,
    selectedPixel := (0, 0), loadButtonPressed := false,
    fileDialogResult := none }

/-- A two-material scene without a light probe. -/
def scene0 : Scene :=
  { lightProbeFilename := none, materials := ["red", "green"] }

/-- The state produced by `setScene` on the null scene (for instantiation). -/
def nullSceneResult : ViewerState :=
  ((setScene okHost stateTwoMats none).toOption).getD testState

/-- The state produced by `setScene` on `scene0` (for instantiation). -/
def scene0Result : ViewerState :=
  ((setScene okHost testState (some scene0)).toOption).getD testState

/-! Theorems. -/

/-- Claim C1 (amended): whenever the environment probe cannot be created from
the given filename, `loadEnvMap` produces a warning, returns `false`, and
leaves the previous state (probe handle, display filename, and all light/map
parameters) completely unchanged. -/
theorem loadEnvMap_create_failure (host : Host) (s : ViewerState) (fn : String)
    (h : host.envProbeCreate fn = none) :
    loadEnvMap host s fn =
      (Except.ok false, s, ["Failed to load environment map from " ++ fn]) := by
  simp [loadEnvMap, h]

/-- Claim C1, counterexample to "no partial mutation occurs on any failure
path of loadEnvMap": when probe creation succeeds but binding the probe
fails, the call throws with the probe handle already overwritten and no
warning logged. -/
theorem loadEnvMap_bind_failure_mutates :
    (loadEnvMap bindFailHost testState "foo.hdr").1 =
      Except.error "Failed to bind EnvProbe to program" ∧
    (loadEnvMap bindFailHost testState "foo.hdr").2.1.mpEnvProbe ≠
      testState.mpEnvProbe ∧
    (loadEnvMap bindFailHost testState "foo.hdr").2.2 = [] := by
  refine ⟨rfl, ?_, rfl⟩
  decide

/-- Claim C1 witness: the create-failure theorem instantiated on a concrete
host, state, and filename. -/
theorem loadEnvMap_create_failure_witness :
    createFailHost.envProbeCreate "probe.hdr" = none ∧
    loadEnvMap createFailHost testState "probe.hdr" =
      (Except.ok false, testState,
       ["Failed to load environment map from " ++ "probe.hdr"]) :=
  ⟨rfl, loadEnvMap_create_failure createFailHost testState "probe.hdr" rfl⟩

/-- Claim C2: with a material list of size `n ≥ 1` and current index in
`[0, n-1]`, a Right key press advances the index by one, wrapping to `0` at
the end, and a Left key press steps it back by one, wrapping to `n-1` at the
start. -/
theorem onKeyEvent_cycling (s : ViewerState)
    (hn : 1 ≤ s.mMaterialList.length)
    (_hid : s.params.materialID < s.mMaterialList.length) :
    ((onKeyEvent s ⟨KeyEventType.keyPressed, Key.right⟩).1.params.materialID =
      if s.params.materialID < s.mMaterialList.length - 1
      then s.params.materialID + 1 else 0) ∧
    ((onKeyEvent s ⟨KeyEventType.keyPressed, Key.left⟩).1.params.materialID =
      if 0 < s.params.materialID
      then s.params.materialID - 1 else s.mMaterialList.length - 1) := by
  have h0 : 0 < s.mMaterialList.length := hn
  constructor <;> simp [onKeyEvent, h0]

/-- Claim C2 witness: cycling instantiated on a concrete two-material state
with current index `0`. -/
theorem onKeyEvent_cycling_witness :
    1 ≤ stateTwoMats.mMaterialList.length ∧
    stateTwoMats.params.materialID < stateTwoMats.mMaterialList.length ∧
    (((onKeyEvent stateTwoMats ⟨KeyEventType.keyPressed, Key.right⟩).1.params.materialID =
        if stateTwoMats.params.materialID < stateTwoMats.mMaterialList.length - 1
        then stateTwoMats.params.materialID + 1 else 0) ∧
     ((onKeyEvent stateTwoMats ⟨KeyEventType.keyPressed, Key.left⟩).1.params.materialID =
        if 0 < stateTwoMats.params.materialID
        then stateTwoMats.params.materialID - 1
        else stateTwoMats.mMaterialList.length - 1)) :=
  ⟨by decide, by decide, onKeyEvent_cycling stateTwoMats (by decide) (by decide)⟩

/-- The integer clamp stays inside `[lo, hi]` whenever `lo ≤ hi`. -/
theorem iclamp_mem (x lo hi : Int) (h : lo ≤ hi) :
    lo ≤ iclamp x lo hi ∧ iclamp x lo hi ≤ hi :=
  ⟨le_min (le_max_right x lo) h, min_le_right _ _⟩

/-- Claim C3: with frame dimensions at least 1, a left-button press writes
the truncated cursor pixel clamped componentwise into
`[0, frameDim.x - 1] × [0, frameDim.y - 1]` into the selected pixel, and no
other event type changes the state. -/
theorem onMouseEvent_selects_clamped_pixel (s : ViewerState) (e : MouseEvent)
    (hw : 1 ≤ s.params.frameDim.1) (hh : 1 ≤ s.params.frameDim.2) :
    (e.type = MouseEventType.leftButtonDown →
      (onMouseEvent s e).1.params.selectedPixel =
        (iclamp (truncQ (e.pos.1 * (s.params.frameDim.1 : ℚ))) 0
           ((s.params.frameDim.1 : Int) - 1),
         iclamp (truncQ (e.pos.2 * (s.params.frameDim.2 : ℚ))) 0
           ((s.params.frameDim.2 : Int) - 1)) ∧
      0 ≤ (onMouseEvent s e).1.params.selectedPixel.1 ∧
      (onMouseEvent s e).1.params.selectedPixel.1 ≤ (s.params.frameDim.1 : Int) - 1 ∧
      0 ≤ (onMouseEvent s e).1.params.selectedPixel.2 ∧
      (onMouseEvent s e).1.params.selectedPixel.2 ≤ (s.params.frameDim.2 : Int) - 1) ∧
    (e.type ≠ MouseEventType.leftButtonDown → (onMouseEvent s e).1 = s) := by
  have hw1 : (0 : Int) ≤ (s.params.frameDim.1 : Int) - 1 := by
    have := hw; omega
  have hh1 : (0 : Int) ≤ (s.params.frameDim.2 : Int) - 1 := by
    have := hh; omega
  constructor
  · intro ht
    refine ⟨by simp [onMouseEvent, ht], ?_, ?_, ?_, ?_⟩ <;>
      simp only [onMouseEvent, ht, if_pos rfl] <;>
      first
        | exact (iclamp_mem _ _ _ hw1).1
        | exact (iclamp_mem _ _ _ hw1).2
        | exact (iclamp_mem _ _ _ hh1).1
        | exact (iclamp_mem _ _ _ hh1).2
  · intro ht
    simp [onMouseEvent, ht]

/-- Claim C3 witness: a left press at normalized position `(3/4, 1/8)` on a
16x8 frame, and an unrelated move event, instantiated on a concrete state. -/
theorem onMouseEvent_selects_clamped_pixel_witness :
    1 ≤ stateFrame.params.frameDim.1 ∧ 1 ≤ stateFrame.params.frameDim.2 ∧
    ((MouseEvent.mk MouseEventType.leftButtonDown (3/4, 1/8)).type =
        MouseEventType.leftButtonDown →
      (onMouseEvent stateFrame
          (MouseEvent.mk MouseEventType.leftButtonDown (3/4, 1/8))).1.params.selectedPixel =
        (iclamp (truncQ ((3/4 : ℚ) * (stateFrame.params.frameDim.1 : ℚ))) 0
           ((stateFrame.params.frameDim.1 : Int) - 1),
         iclamp (truncQ ((1/8 : ℚ) * (stateFrame.params.frameDim.2 : ℚ))) 0
           ((stateFrame.params.frameDim.2 : Int) - 1)) ∧
      0 ≤ (onMouseEvent stateFrame
          (MouseEvent.mk MouseEventType.leftButtonDown (3/4, 1/8))).1.params.selectedPixel.1 ∧
      (onMouseEvent stateFrame
          (MouseEvent.mk MouseEventType.leftButtonDown (3/4, 1/8))).1.params.selectedPixel.1 ≤
        (stateFrame.params.frameDim.1 : Int) - 1 ∧
      0 ≤ (onMouseEvent stateFrame
          (MouseEvent.mk MouseEventType.leftButtonDown (3/4, 1/8))).1.params.selectedPixel.2 ∧
      (onMouseEvent stateFrame
          (MouseEvent.mk MouseEventType.leftButtonDown (3/4, 1/8))).1.params.selectedPixel.2 ≤
        (stateFrame.params.frameDim.2 : Int) - 1) ∧
    ((MouseEvent.mk MouseEventType.leftButtonDown (3/4, 1/8)).type ≠
        MouseEventType.leftButtonDown →
      (onMouseEvent stateFrame
          (MouseEvent.mk MouseEventType.leftButtonDown (3/4, 1/8))).1 = stateFrame) :=
  ⟨by decide, by decide,
   onMouseEvent_selects_clamped_pixel stateFrame
     (MouseEvent.mk MouseEventType.leftButtonDown (3/4, 1/8))
     (by decide) (by decide)⟩

/-- Claim C4, counterexample: on a single-material list with index 0, a Right
arrow press recomputes the same index, so the options-changed flag is NOT
set. -/
theorem onKeyEvent_flag_counterexample :
    (onKeyEvent stateOneMat ⟨KeyEventType.keyPressed, Key.right⟩).1.mOptionsChanged
      = false := by
  decide

/-- Claim C4 (amended): for every key-pressed event with the Left or Right
arrow key, the options-changed flag is raised exactly when the material index
actually changes (and is left as it was otherwise). -/
theorem onKeyEvent_flag_iff_index_changed (s : ViewerState) (e : KeyboardEvent)
    (hp : e.type = KeyEventType.keyPressed)
    (hk : e.key = Key.left ∨ e.key = Key.right) :
    (onKeyEvent s e).1.mOptionsChanged =
      (s.mOptionsChanged ||
       decide ((onKeyEvent s e).1.params.materialID ≠ s.params.materialID)) := by
  obtain ⟨t, k⟩ := e
  cases hp
  simp only [onKeyEvent, if_pos rfl, if_pos hk]
  set lastId := if s.mMaterialList.length > 0 then s.mMaterialList.length - 1 else 0 with hlast
  set id2 := if k = Key.left
             then (if s.params.materialID > 0 then s.params.materialID - 1 else lastId)
             else (if s.params.materialID < lastId then s.params.materialID + 1 else 0)
    with hid2
  by_cases hch : id2 ≠ s.params.materialID
  · simp [hch]
  · simp only [if_neg hch]
    simp at hch
    simp [hch]

/-- Claim C4 witness: the amended flag behavior instantiated on a concrete
two-material state and a Right key press. -/
theorem onKeyEvent_flag_iff_index_changed_witness :
    (onKeyEvent stateTwoMats ⟨KeyEventType.keyPressed, Key.right⟩).1.mOptionsChanged =
      (stateTwoMats.mOptionsChanged ||
       decide ((onKeyEvent stateTwoMats
           ⟨KeyEventType.keyPressed, Key.right⟩).1.params.materialID ≠
         stateTwoMats.params.materialID)) :=
  onKeyEvent_flag_iff_index_changed stateTwoMats
    ⟨KeyEventType.keyPressed, Key.right⟩ rfl (Or.inr rfl)

/-- Claim C5: after a normally returning `execute`, the pixel-data validity
flag equals exactly whether the readback option was enabled, and when it was
enabled the pixel-data record has been copied back from the readback
buffer. -/
theorem execute_readback_validity (env : ExecEnv) (s : ViewerState)
    (dict : RenderDataDict) (h : (execute env s dict).1 = none) :
    (execute env s dict).2.1.mPixelDataValid = s.params.readback ∧
    (s.params.readback = true →
      (execute env s dict).2.1.mPixelData = env.bufferData) := by
  by_cases hb : env.bindSampleGenOk
  · by_cases ho : s.mOptionsChanged <;> by_cases hr : s.params.readback <;>
      simp [execute, hb, ho, hr]
  · exfalso
    simp [execute, hb] at h

/-- Claim C5 witness: the validity property instantiated on a concrete state
with readback enabled and a concrete frame environment. -/
theorem execute_readback_validity_witness :
    (execute execEnv0 stateReadback dict5).1 = none ∧
    (execute execEnv0 stateReadback dict5).2.1.mPixelDataValid =
      stateReadback.params.readback ∧
    (stateReadback.params.readback = true →
      (execute execEnv0 stateReadback dict5).2.1.mPixelData =
        execEnv0.bufferData) := by
  have h := execute_readback_validity execEnv0 stateReadback dict5 rfl
  exact ⟨rfl, h.1, h.2⟩

/-- OR-ing flag bits into a value preserves every bit already present, and
all bits of the OR-ed flag are present afterwards. -/
theorem lor_and_absorb (a b : Nat) :
    (a ||| b) &&& a = a ∧ (a ||| b) &&& b = b := by
  constructor <;>
    · apply Nat.eq_of_testBit_eq
      intro i
      simp only [Nat.testBit_and, Nat.testBit_or]
      cases a.testBit i <;> cases b.testBit i <;> rfl

/-- Claim C6: when the options-changed flag is set, `execute` replaces the
refresh-flags dictionary entry by its previous value (0 when absent) OR-ed
with the RenderOptionsChanged bit — preserving every previously present bit —
and resets the flag; when it is not set, the dictionary entry is not
modified. -/
theorem execute_refresh_flags (env : ExecEnv) (s : ViewerState)
    (dict : RenderDataDict) :
    ((execute env s dict).2.2.refreshFlags =
      if s.mOptionsChanged then
        some (dict.refreshFlags.getD 0 ||| kRenderOptionsChanged)
      else dict.refreshFlags) ∧
    (execute env s dict).2.1.mOptionsChanged = false ∧
    (dict.refreshFlags.getD 0 ||| kRenderOptionsChanged) &&&
        dict.refreshFlags.getD 0 = dict.refreshFlags.getD 0 ∧
    (dict.refreshFlags.getD 0 ||| kRenderOptionsChanged) &&&
        kRenderOptionsChanged = kRenderOptionsChanged := by
  refine ⟨?_, ?_, (lor_and_absorb _ _).1, (lor_and_absorb _ _).2⟩ <;>
    by_cases ho : s.mOptionsChanged <;> by_cases hb : env.bindSampleGenOk <;>
      by_cases hr : s.params.readback <;> simp [execute, ho, hb, hr]

/-- Claim C7: `create` returns a pass object exactly when the compute kernel,
the sample generator, and the readback buffer all construct successfully,
and returns null otherwise. -/
theorem create_iff_subresources (h : InitHost) :
    (create h).isSome =
      (h.computePassCreateOk && h.sampleGeneratorCreateOk &&
       h.structuredBufferCreateOk) := by
  rcases h with ⟨a, b, c⟩
  cases a <;> cases b <;> cases c <;> rfl

/-- Claim C9: `compile` places a square viewport of side `extent = min w h`
centered in the frame: offset `((w - extent)/2, (h - extent)/2)` with integer
division, scale `(1/extent, 1/extent)`, and the viewport rectangle lies
entirely inside the frame rectangle. -/
theorem compile_centered_viewport (s : ViewerState) (w h : Nat)
    (_hw : 1 ≤ w) (_hh : 1 ≤ h) :
    (compile s (w, h)).params.frameDim = (w, h) ∧
    (compile s (w, h)).params.viewportOffset =
      ((((w - min w h) / 2 : Nat) : ℚ), (((h - min w h) / 2 : Nat) : ℚ)) ∧
    (compile s (w, h)).params.viewportScale =
      (1 / ((min w h : Nat) : ℚ), 1 / ((min w h : Nat) : ℚ)) ∧
    (w - min w h) / 2 + min w h ≤ w ∧
    (h - min w h) / 2 + min w h ≤ h := by
  refine ⟨rfl, rfl, rfl, ?_, ?_⟩ <;> omega

/-- Claim C9 witness: the viewport placement instantiated on a concrete 5x3
frame. -/
theorem compile_centered_viewport_witness :
    1 ≤ 5 ∧ 1 ≤ 3 ∧
    ((compile testState (5, 3)).params.frameDim = (5, 3) ∧
     (compile testState (5, 3)).params.viewportOffset =
       ((((5 - min 5 3) / 2 : Nat) : ℚ), (((3 - min 5 3) / 2 : Nat) : ℚ)) ∧
     (compile testState (5, 3)).params.viewportScale =
       (1 / ((min 5 3 : Nat) : ℚ), 1 / ((min 5 3 : Nat) : ℚ)) ∧
     (5 - min 5 3) / 2 + min 5 3 ≤ 5 ∧
     (3 - min 5 3) / 2 + min 5 3 ≤ 3) :=
  ⟨by decide, by decide,
   compile_centered_viewport testState 5 3 (by decide) (by decide)⟩

/-- Claim C10: a null-scene `setScene` empties the material list, resets the
material index, clears the probe handle and its filename, and disables the
scene-material and environment-map options; a non-null `setScene` that
returns normally builds exactly one `(index, label)` entry per scene
material, in index order starting at 0. -/
theorem setScene_resets_and_lists (host : Host) (s : ViewerState) :
    (∀ t, setScene host s none = Except.ok t →
      t.mMaterialList = [] ∧ t.params.materialID = 0 ∧ t.mpEnvProbe = none ∧
      t.mEnvProbeFilename = "" ∧ t.params.useSceneMaterial = false ∧
      t.params.useEnvMap = false) ∧
    (∀ sc t, setScene host s (some sc) = Except.ok t →
      t.mMaterialList.length = sc.materials.length ∧
      ∀ i, (hi : i < t.mMaterialList.length) → (hm : i < sc.materials.length) →
        t.mMaterialList.get ⟨i, hi⟩ =
          (i, toString i ++ ": " ++ sc.materials.get ⟨i, hm⟩)) := by
  constructor
  · intro t ht
    simp only [setScene, Except.ok.injEq] at ht
    subst ht
    exact ⟨rfl, rfl, rfl, rfl, rfl, rfl⟩
  · intro sc t ht
    simp only [setScene] at ht
    split at ht
    · exact absurd ht (by simp)
    · rename_i s2 hs2
      simp only [Except.ok.injEq] at ht
      subst ht
      constructor
      · simp [List.enum_length]
      · intro i hi hm
        simp [List.get_eq_getElem]

/-- Claim C10 witness: `setScene` instantiated on the null scene and on a
concrete two-material scene. -/
theorem setScene_resets_and_lists_witness :
    nullSceneResult.mMaterialList = [] ∧
    nullSceneResult.params.useEnvMap = false ∧
    scene0Result.mMaterialList.length = scene0.materials.length := by
  have h1 := (setScene_resets_and_lists okHost stateTwoMats).1 nullSceneResult rfl
  have h2 := (setScene_resets_and_lists okHost testState).2 scene0 scene0Result rfl
  exact ⟨h1.1, h1.2.2.2.2.2, h2.1⟩

/-- Lemma: `loadEnvMap` never touches the parameter block. -/
theorem loadEnvMap_params (host : Host) (s : ViewerState) (fn : String) :
    (loadEnvMap host s fn).2.1.params = s.params := by
  rcases h : host.envProbeCreate fn with _ | probe
  · simp only [loadEnvMap, h]
  · simp only [loadEnvMap, h]
    split <;> rfl

/-- The "Material" group leaves the two light options untouched. -/
theorem renderMaterialGroup_preserves_light (ui : UIInput) (s : ViewerState)
    (d : Bool) :
    (renderMaterialGroup ui s d).1.params.useDirectionalLight =
      s.params.useDirectionalLight ∧
    (renderMaterialGroup ui s d).1.params.useEnvMap = s.params.useEnvMap := by
  constructor <;> (simp only [renderMaterialGroup]; split_ifs <;> rfl)

/-- The "BSDF" group leaves the two light options untouched. -/
theorem renderBSDFGroup_preserves_light (ui : UIInput) (s : ViewerState)
    (d : Bool) :
    (renderBSDFGroup ui s d).1.params.useDirectionalLight =
      s.params.useDirectionalLight ∧
    (renderBSDFGroup ui s d).1.params.useEnvMap = s.params.useEnvMap := by
  constructor <;> (simp only [renderBSDFGroup]; split_ifs <;> rfl)

/-- The "Camera" group leaves the two light options untouched. -/
theorem renderCameraGroup_preserves_light (ui : UIInput) (s : ViewerState)
    (d : Bool) :
    (renderCameraGroup ui s d).1.params.useDirectionalLight =
      s.params.useDirectionalLight ∧
    (renderCameraGroup ui s d).1.params.useEnvMap = s.params.useEnvMap := by
  constructor <;> (simp only [renderCameraGroup]; split_ifs <;> rfl)

/-- The "Pixel data" group leaves the two light options untouched. -/
theorem renderPixelGroup_preserves_light (ui : UIInput) (s : ViewerState) :
    (renderPixelGroup ui s).params.useDirectionalLight =
      s.params.useDirectionalLight ∧
    (renderPixelGroup ui s).params.useEnvMap = s.params.useEnvMap := by
  constructor <;> (simp only [renderPixelGroup]; split_ifs <;> rfl)

/-- The load-envmap button step keeps the two light options mutually
exclusive. -/
theorem loadEnvMapButton_exclusive (host : Host) (ui : UIInput)
    (s : ViewerState) (d : Bool)
    (h : ¬(s.params.useDirectionalLight = true ∧ s.params.useEnvMap = true)) :
    ¬((loadEnvMapButton host ui s d).2.1.params.useDirectionalLight = true ∧
      (loadEnvMapButton host ui s d).2.1.params.useEnvMap = true) := by
  by_cases hl : ui.loadButtonPressed
  case neg => simpa [loadEnvMapButton, hl] using h
  simp only [loadEnvMapButton, hl, if_true]
  rcases hfd : ui.fileDialogResult with _ | fn
  · simpa [hfd] using h
  · simp only [hfd]
    have hp := loadEnvMap_params host s fn
    rcases h2 : loadEnvMap host s fn with ⟨r, s2, w⟩
    rw [h2] at hp
    rcases r with e | b
    · simpa using fun hd he => h ⟨hp ▸ hd, hp ▸ he⟩
    · rcases b with _ | _
      · simpa using fun hd he => h ⟨hp ▸ hd, hp ▸ he⟩
      · simp

/-- The "Light" group establishes mutual exclusion of the directional-light
and environment-map options (and preserves it when the group is closed). -/
theorem renderLightGroup_exclusive (host : Host) (ui : UIInput)
    (s : ViewerState) (d : Bool)
    (h : ¬(s.params.useDirectionalLight = true ∧ s.params.useEnvMap = true)) :
    ¬((renderLightGroup host ui s d).2.1.params.useDirectionalLight = true ∧
      (renderLightGroup host ui s d).2.1.params.useEnvMap = true) := by
  by_cases hopen : ui.lightGroupOpen
  case neg => simpa [renderLightGroup, hopen] using h
  simp only [renderLightGroup, hopen, if_true]
  apply loadEnvMapButton_exclusive
  by_cases hdir : ui.useDirectionalLight <;>
    by_cases hpr : s.mpEnvProbe.isSome <;>
      by_cases henv : ui.useEnvMap <;>
        simp [hdir, hpr, henv]

/-- Claim C8: `renderUI` maintains the invariant that the directional-light
option and the environment-map option are never both enabled. -/
theorem renderUI_light_exclusive (host : Host) (s : ViewerState) (ui : UIInput)
    (h : ¬(s.params.useDirectionalLight = true ∧ s.params.useEnvMap = true)) :
    ¬((renderUI host s ui).2.params.useDirectionalLight = true ∧
      (renderUI host s ui).2.params.useEnvMap = true) := by
  simp only [renderUI]
  have hm := renderMaterialGroup_preserves_light ui
    { s with params := { s.params with sliceViewer := ui.sliceViewer } }
    (false || decide (ui.sliceViewer ≠ s.params.sliceViewer))
  set m := renderMaterialGroup ui
    { s with params := { s.params with sliceViewer := ui.sliceViewer } }
    (false || decide (ui.sliceViewer ≠ s.params.sliceViewer)) with hmdef
  have hb := renderBSDFGroup_preserves_light ui m.1 m.2
  set b := renderBSDFGroup ui m.1 m.2 with hbdef
  have hinvb : ¬(b.1.params.useDirectionalLight = true ∧
      b.1.params.useEnvMap = true) := by
    rw [hb.1, hb.2, hm.1, hm.2]
    exact h
  have hlight := renderLightGroup_exclusive host ui b.1 b.2 hinvb
  set l := renderLightGroup host ui b.1 b.2 with hldef
  rcases hl1 : l.1 with _ | e
  · simp only [hl1]
    have hc := renderCameraGroup_preserves_light ui l.2.1 l.2.2
    set c := renderCameraGroup ui l.2.1 l.2.2 with hcdef
    have hpx := renderPixelGroup_preserves_light ui c.1
    intro hcontra
    apply hlight
    by_cases hd : c.2 <;>
      simp only [hd, if_true, if_false, Bool.false_eq_true, ite_true,
        ite_false] at hcontra <;>
      exact ⟨by rw [← hc.1, ← hpx.1]; exact hcontra.1,
             by rw [← hc.2, ← hpx.2]; exact hcontra.2⟩
  · simp only [hl1]
    exact hlight

/-- Claim C8 witness: the invariant instantiated on a concrete state with
both options off and the interaction that ticks both checkboxes. -/
theorem renderUI_light_exclusive_witness :
    ¬(testState.params.useDirectionalLight = true ∧
      testState.params.useEnvMap = true) ∧
    ¬((renderUI okHost testState uiInput0).2.params.useDirectionalLight = true ∧
      (renderUI okHost testState uiInput0).2.params.useEnvMap = true) :=
  ⟨by decide, renderUI_light_exclusive okHost testState uiInput0 (by decide)⟩

end BSDFViewer
